import Mathlib

/-!
Verification of the news-aggregator pipeline (martar2277/aggregator).

Shallow embedding of the orchestration core: the `Pipeline.run` orchestrator
(`src/core/base.py`), the RSS fetcher with its relevance filter
(`src/components/rss.py`), the provider selection logic
(`src/main.py` / `src/config.py`), and the per-backend cost computation
(`src/components/llm.py`, `openai_llm.py`, `gemini_llm.py`).

External collaborators (feedparser, urlparse, wall-clock time, the LLM wire
calls) are modelled as parameters: a parsed feed is given as data, the
URL-to-display-name function and the current timestamp are arguments, and an
LLM call is a function `String → Except Unit String` whose `.error` case
stands for any raised exception.
-/

namespace Aggregator

/-- An article dictionary as produced by `RSSFetcher._parse_entry`. -/
structure Article where
  title : String
  summary : String
  link : String
  published : String
  source : String
  source_name : String
  authors : List String
  tags : List String
deriving DecidableEq, Repr

/-- A feedparser entry: every field the code reads, `none` meaning the
attribute/key is absent. `content` is the list of the content items' `value`
fields (`none` when a content item has no `value`); `authors` and `tags`
are the lists of `name`/`term` fields of the corresponding dicts. -/
structure RawEntry where
  title : Option String := none
  summary : Option String := none
  description : Option String := none
  content : Option (List (Option String)) := none
  link : Option String := none
  published : Option String := none
  updated : Option String := none
  created : Option String := none
  author : Option String := none
  authors : Option (List (Option String)) := none
  tags : Option (List (Option String)) := none
deriving DecidableEq, Repr

/-- A parsed feed as returned by `feedparser.parse`: the bozo flag, the
stringified bozo exception, and the entry list. -/
structure Feed where
  bozo : Bool := false
  bozoMsg : String := "Unknown parsing error"
  entries : List RawEntry := []

/-- `RSSFetcher._get_summary`: try `summary`, then `description`, then the
first content item's `value`, else the empty string. -/
def getSummary (e : RawEntry) : String :=
  match e.summary with
  | some s => s
  | none =>
    match e.description with
    | some d => d
    | none =>
      match e.content with
      | some (v :: _) => v.getD ""
      | _ => ""

/-- `RSSFetcher._get_published_date`: `published`, else `updated`, else
`created`, else the current time (`now`, an external input). -/
def getPublished (e : RawEntry) (now : String) : String :=
  match e.published with
  | some p => p
  | none =>
    match e.updated with
    | some u => u
    | none =>
      match e.created with
      | some c => c
      | none => now

/-- `RSSFetcher._get_authors`: `entry.author` if present, else the truthy
`name` fields of `entry.authors`. -/
def getAuthors (e : RawEntry) : List String :=
  match e.author with
  | some a => [a]
  | none =>
    match e.authors with
    | some l => l.filterMap (fun n => match n with
        | some s => if s = "" then none else some s
        | none => none)
    | none => []

/-- `RSSFetcher._get_tags`: the truthy `term` fields of `entry.tags`. -/
def getTags (e : RawEntry) : List String :=
  match e.tags with
  | some l => l.filterMap (fun n => match n with
      | some s => if s = "" then none else some s
      | none => none)
  | none => []

/-- `RSSFetcher._parse_entry`. `extName` stands for
`_extract_source_name` (URL parsing, an external library call). A missing
title defaults to the string `"No title"`, a missing link to `""`; the
entry is rejected (`none`) when the resulting title or link is falsy. -/
def parseEntry (extName : String → String) (now : String)
    (e : RawEntry) (source : String) : Option Article :=
  let a : Article :=
    { title := e.title.getD "No title"
      summary := getSummary e
      link := e.link.getD ""
      published := getPublished e now
      source := source
      source_name := extName source
      authors := getAuthors e
      tags := getTags e }
  if a.title = "" || a.link = "" then none else some a

/-! ### Relevance filter (`rss.py`) -/

/-- Is a character one of the sentence delimiters of the regex `[.!?]+`
used by `_extract_excerpt`. -/
def isSentenceDelim (c : Char) : Bool :=
  c = '.' || c = '!' || c = '?'

/-- `re.split` on the pattern `[.!?]+`: fields between maximal delimiter
runs, including the (possibly empty) leading and trailing fields. The
`inRun` flag records whether we just consumed a delimiter run and have not
yet opened the following field. -/
def reSplitSentences : List Char → List Char → Bool → List String → List String
  | [], buf, inRun, acc =>
    if inRun then acc ++ [""] else acc ++ [String.mk buf.reverse]
  | c :: rest, buf, inRun, acc =>
    if isSentenceDelim c then
      if inRun then reSplitSentences rest [] true acc
      else reSplitSentences rest [] true (acc ++ [String.mk buf.reverse])
    else
      if inRun then reSplitSentences rest [c] false acc
      else reSplitSentences rest (c :: buf) false acc

/-- Python `str.lower()` (ASCII case mapping, as in `Char.toLower`). -/
def strLower (s : String) : String :=
  String.mk (s.data.map Char.toLower)

/-- Python `str.upper()` (ASCII case mapping). -/
def strUpper (s : String) : String :=
  String.mk (s.data.map Char.toUpper)

/-- Python `str.strip()`: remove leading and trailing whitespace. -/
def strTrim (s : String) : String :=
  String.mk (((s.data.dropWhile Char.isWhitespace).reverse.dropWhile
    Char.isWhitespace).reverse)

/-- Worker for `splitWs`: accumulate maximal non-whitespace runs. -/
def splitWsAux : List Char → List Char → List String → List String
  | [], buf, acc => if buf.isEmpty then acc else acc ++ [String.mk buf.reverse]
  | c :: rest, buf, acc =>
    if c.isWhitespace then
      if buf.isEmpty then splitWsAux rest [] acc
      else splitWsAux rest [] (acc ++ [String.mk buf.reverse])
    else splitWsAux rest (c :: buf) acc

/-- Python `str.split()` with no argument: whitespace-delimited words,
empty fields dropped. -/
def splitWs (s : String) : List String :=
  splitWsAux s.data [] []

/-- `RSSFetcher._extract_excerpt`: first three sentence fields of the
summary joined by ". ", stripped, then truncated to 100 words with an
ellipsis marker. -/
def extractExcerpt (a : Article) : String :=
  if a.summary = "" then ""
  else
    let sentences := reSplitSentences a.summary.data [] false []
    let excerpt := strTrim (String.intercalate ". " (sentences.take 3))
    let words := splitWs excerpt
    if words.length > 100 then String.intercalate " " (words.take 100) ++ "..."
    else excerpt

/-- Is `needle` a leading segment of `hay` (character lists). -/
def chStarts : List Char → List Char → Bool
  | [], _ => true
  | _ :: _, [] => false
  | a :: as, b :: bs => a = b && chStarts as bs

/-- Python's `needle in hay` substring test on character lists. -/
def chSub (needle : List Char) : List Char → Bool
  | [] => needle.isEmpty
  | b :: bs => chStarts needle (b :: bs) || chSub needle bs

/-- Python's `needle in hay` substring test on strings. -/
def strContainsSub (hay needle : String) : Bool :=
  chSub needle.data hay.data

/-- Python `str.startswith`. -/
def strStartsWith (s pre : String) : Bool :=
  chStarts pre.data s.data

/-- `RSSFetcher._keyword_match`: lower-case `f"{title} {summary}"`, split
the lower-cased topic into whitespace words, count the words occurring as
substrings, and compare with `max(1, len(keywords) // 2)`. -/
def keywordMatch (topicFilter : String) (a : Article) : Bool :=
  let searchable := strLower (a.title ++ " " ++ a.summary)
  let keywords := splitWs (strLower topicFilter)
  let matchCount := (keywords.filter (fun k => strContainsSub searchable k)).length
  let threshold := max 1 (keywords.length / 2)
  decide (threshold ≤ matchCount)

/-- The relevance prompt built by `RSSFetcher._llm_match`. -/
def filterPrompt (topicFilter : String) (a : Article) : String :=
  "Does the following article excerpt discuss the topic: \"" ++ topicFilter
    ++ "\"?\n\nArticle Title: " ++ a.title
    ++ "\nArticle Excerpt: " ++ extractExcerpt a
    ++ "\n\nAnswer with only \"YES\" if the article is relevant to the topic, or \"NO\" if it is not relevant.\nYour answer:"

/-- `RSSFetcher._llm_match`: call the backend on the relevance prompt; on
success answer whether the trimmed upper-cased response starts with "YES";
on any exception fall back to `_keyword_match`. -/
def llmMatch (topicFilter : String) (call : String → Except Unit String)
    (a : Article) : Bool :=
  match call (filterPrompt topicFilter a) with
  | Except.ok resp => strStartsWith (strUpper (strTrim resp)) "YES"
  | Except.error _ => keywordMatch topicFilter a

/-- `RSSFetcher._matches_topic`: a falsy (`None` or empty) topic matches
everything; without an LLM processor use `_keyword_match`; otherwise
`_llm_match`. -/
def matchesTopic (topicFilter : Option String)
    (llm : Option (String → Except Unit String)) (a : Article) : Bool :=
  match topicFilter with
  | none => true
  | some t =>
    if t = "" then true
    else
      match llm with
      | none => keywordMatch t a
      | some call => llmMatch t call a

/-! ### Exceptions (`core/errors.py`) -/

/-- The exception values crossing the modelled boundaries: the four
`AggregatorError` subclasses plus an arbitrary non-aggregator exception
(`otherExc`, carrying its `str(e)`). -/
inductive PyExc where
  | fetchExc (source msg : String)
  | processExc (processor msg : String)
  | storageExc (operation msg : String)
  | configExc (configKey msg : String)
  | aggExc (msg : String)
  | otherExc (msg : String)
deriving DecidableEq, Repr

/-- Python `str(e)` of each exception, as formatted by the constructors in
`core/errors.py` (a plain `AggregatorError` or foreign exception shows
its message unchanged). -/
def PyExc.pyStr : PyExc → String
  | .fetchExc s m => "Failed to fetch from " ++ s ++ ": " ++ m
  | .processExc p m => "Processing failed (" ++ p ++ "): " ++ m
  | .storageExc o m => "Storage " ++ o ++ " failed: " ++ m
  | .configExc k m => "Configuration error (" ++ k ++ "): " ++ m
  | .aggExc m => m
  | .otherExc m => m

/-! ### RSS fetch (`RSSFetcher.fetch`) -/

/-- Is the topic filter truthy in Python's sense (`if self.topic_filter`):
present and non-empty. -/
def topicTruthy : Option String → Bool
  | none => false
  | some t => decide (t ≠ "")

/-- The article-extraction loop of `RSSFetcher.fetch`: parse each entry,
skip unparseable ones, drop non-matching ones when a topic filter is set,
append the rest, and break once `max_articles` accepted articles exist. -/
def fetchLoop (extName : String → String) (now : String) (maxArticles : Nat)
    (topicFilter : Option String) (llm : Option (String → Except Unit String))
    (source : String) : List RawEntry → List Article → List Article
  | [], acc => acc
  | e :: rest, acc =>
    match parseEntry extName now e source with
    | none => fetchLoop extName now maxArticles topicFilter llm source rest acc
    | some a =>
      if topicTruthy topicFilter && !matchesTopic topicFilter llm a then
        fetchLoop extName now maxArticles topicFilter llm source rest acc
      else
        let acc' := acc ++ [a]
        if maxArticles ≤ acc'.length then acc'
        else fetchLoop extName now maxArticles topicFilter llm source rest acc'

/-- `RSSFetcher.fetch` on an already-parsed feed: the bozo / no-entries
checks, the extraction loop, and the empty-result errors. -/
def fetchModel (extName : String → String) (now : String) (maxArticles : Nat)
    (topicFilter : Option String) (llm : Option (String → Except Unit String))
    (source : String) (feed : Feed) : Except PyExc (List Article) :=
  if feed.bozo && feed.entries.isEmpty then
    Except.error (.fetchExc source ("RSS parsing failed: " ++ feed.bozoMsg))
  else if feed.entries.isEmpty then
    Except.error (.fetchExc source "No entries found in RSS feed")
  else
    let articles := fetchLoop extName now maxArticles topicFilter llm source feed.entries []
    if articles.isEmpty then
      if topicTruthy topicFilter then
        Except.error (.fetchExc source
          ("No articles found matching topic: " ++ topicFilter.getD ""))
      else
        Except.error (.fetchExc source "No valid articles could be extracted")
    else
      Except.ok articles

/-! ### Pipeline orchestrator (`Pipeline.run`) -/

/-- An entry of the run's `errors` list: phase, optional source, message. -/
structure ErrEntry where
  phase : String
  source : Option String := none
  error : String
deriving DecidableEq, Repr

/-- The `results` dictionary of `Pipeline.run` (`synthesis` is a key added
only on success, hence an `Option`). `duration` is the externally measured
elapsed time (wall-clock arithmetic is outside the model). -/
structure Results where
  success : Bool
  topic : Option String
  sources : List String
  articles_processed : Nat
  errors : List ErrEntry
  output_path : Option String
  storage_id : Option String
  duration : Nat
  synthesis : Option String
deriving DecidableEq, Repr

/-- The initial `results` dictionary created at the top of `run`. -/
def initResults (sources : List String) (topic : Option String) : Results :=
  { success := false, topic := topic, sources := sources
    articles_processed := 0, errors := [], output_path := none
    storage_id := none, duration := 0, synthesis := none }

/-- Python `repr` of a list of strings, used in the all-sources-failed
message `f"... Failed sources: {failed_sources}"`. -/
def pyReprList (l : List String) : String :=
  "[" ++ String.intercalate ", " (l.map (fun s => "\x27" ++ s ++ "\x27")) ++ "]"

/-- The message recorded for a fetch failure is `str(e)` of the caught
exception — the same in the `FetchError` branch and in the wrap-and-record
branch, since the latter records the original exception's string. -/
def fetchRecordEntry (source : String) (e : PyExc) : ErrEntry :=
  { phase := "fetch", source := some source, error := e.pyStr }

/-- The state threaded through the fetch loop of `Pipeline.run`:
`all_articles`, `failed_sources`, and the mutated `results`. -/
def fetchPhaseStep (f : String → Except PyExc (List Article))
    (st : List Article × List String × Results) (s : String) :
    List Article × List String × Results :=
  match f s with
  | Except.ok arts => (st.1 ++ arts, st.2.1, st.2.2)
  | Except.error e =>
    (st.1, st.2.1 ++ [s],
      { st.2.2 with errors := st.2.2.errors ++ [fetchRecordEntry s e] })

/-- The exception re-raised out of the process phase: a `ProcessError`
passes through; anything else is wrapped as `ProcessError("unknown",
str(e))`. -/
def wrapProcess (e : PyExc) : PyExc :=
  match e with
  | .processExc p m => .processExc p m
  | e => .processExc "unknown" e.pyStr

/-- Everything observable from one `Pipeline.run` invocation: the returned
dictionary or raised exception, the final state of the (in-place mutated)
`results` dictionary, the number of `save_metrics` attempts, and any
warning printed when the metrics flush itself failed. -/
structure RunOutcome where
  outcome : Except PyExc Results
  finalState : Results
  metricsSaves : Nat
  warnings : List String
deriving Repr

/-- Phase 3 of `Pipeline.run` (optional storage): on success record the
storage id; on failure append a phase="storage" error entry and continue. -/
def storagePhase (storage : Option (String → List Article → Except PyExc String))
    (synthesis : String) (allArticles : List Article) (r : Results) : Results :=
  match storage with
  | none => r
  | some save =>
    match save synthesis allArticles with
    | Except.ok sid => { r with storage_id := some sid }
    | Except.error e =>
      { r with errors := r.errors ++ [({ phase := "storage", error := e.pyStr } : ErrEntry)] }

/-- Phase 4 of `Pipeline.run` (optional output): on success record the
output path; on failure append a phase="output" error entry and continue. -/
def outputPhase (output : Option (String → Except PyExc String))
    (synthesis : String) (r : Results) : Results :=
  match output with
  | none => r
  | some gen =>
    match gen synthesis with
    | Except.ok path => { r with output_path := some path }
    | Except.error e =>
      { r with errors := r.errors ++ [({ phase := "output", error := e.pyStr } : ErrEntry)] }

/-- The body of `Pipeline.run` up to the try/except/finally wrapper:
returns the raised exception or `()`, together with the mutated `results`.
`fetcher`, `processor`, `storage`, `output` are the configured components
(`none` = not configured); `storage.save` receives the synthesis and the
article batch (the timestamped metadata dict is external). -/
def runCore (fetcher : Option (String → Except PyExc (List Article)))
    (processor : Option (List Article → Except PyExc String))
    (storage : Option (String → List Article → Except PyExc String))
    (output : Option (String → Except PyExc String))
    (elapsed : Nat) (sources : List String) (topic : Option String) :
    Except PyExc Unit × Results :=
  let r0 := initResults sources topic
  match fetcher, processor with
  | none, _ => (Except.error (.aggExc "No fetcher configured"), r0)
  | some _, none => (Except.error (.aggExc "No processor configured"), r0)
  | some f, some p =>
    let st := sources.foldl (fetchPhaseStep f) ([], [], r0)
    let allArticles := st.1
    let failedSources := st.2.1
    let r1 := st.2.2
    if allArticles.isEmpty then
      (Except.error (.fetchExc "all_sources"
        ("No articles fetched from any source. Failed sources: "
          ++ pyReprList failedSources)), r1)
    else
      let r2 := { r1 with articles_processed := allArticles.length }
      match p allArticles with
      | Except.error e =>
        let r3 := { r2 with errors := r2.errors ++ [({ phase := "process", error := e.pyStr } : ErrEntry)] }
        (Except.error (wrapProcess e), r3)
      | Except.ok synthesis =>
        let r5 := outputPhase output synthesis
          (storagePhase storage synthesis allArticles r2)
        let r6 := { r5 with success := true, synthesis := some synthesis,
                            duration := elapsed }
        (Except.ok (), r6)

/-- `Pipeline.run` with its exception handlers and `finally` block: a
raised `AggregatorError` (every modelled exception) gets `duration` set and
is re-raised; the `finally` always attempts `save_metrics` once, swallowing
its failure (`metricsFail`) into a printed warning. -/
def runModel (fetcher : Option (String → Except PyExc (List Article)))
    (processor : Option (List Article → Except PyExc String))
    (storage : Option (String → List Article → Except PyExc String))
    (output : Option (String → Except PyExc String))
    (metricsFail : Bool) (elapsed : Nat)
    (sources : List String) (topic : Option String) : RunOutcome :=
  let core := runCore fetcher processor storage output elapsed sources topic
  let outFinal :=
    match core with
    | (Except.ok _, r) => (Except.ok r, r)
    | (Except.error e, r) => (Except.error e, { r with duration := elapsed })
  { outcome := outFinal.1
    finalState := outFinal.2
    metricsSaves := 1
    warnings := if metricsFail then ["Warning: Failed to save metrics"] else [] }

/-! ### Provider selection (`config.py`, `main.py`) -/

/-- Truthiness of the three configured API keys (`Config.*_API_KEY`). -/
structure Keys where
  anthropic : Bool
  openai : Bool
  gemini : Bool
deriving DecidableEq, Repr

/-- `Config.get_available_providers`: append `"anthropic"`, `"openai"`,
`"gemini"` in that order when the respective key is set. -/
def getAvailableProviders (k : Keys) : List String :=
  (if k.anthropic then ["anthropic"] else [])
    ++ (if k.openai then ["openai"] else [])
    ++ (if k.gemini then ["gemini"] else [])

/-- The provider-selection fragment of `create_pipeline`: error if no key
is configured, keep the requested provider when available, otherwise take
`available_providers[0]`. -/
def selectProvider (requested : String) (k : Keys) : Except PyExc String :=
  match getAvailableProviders k with
  | [] => Except.error (.configExc "API_KEYS" "No LLM API keys configured")
  | a :: rest =>
    if requested ∈ a :: rest then Except.ok requested else Except.ok a

/-- The first provider of the fixed priority order
(anthropic, openai, gemini) whose key is configured — the spec's
"first element of the available set in the fixed priority order". -/
def priorityFirst (k : Keys) : Option String :=
  if k.anthropic then some "anthropic"
  else if k.openai then some "openai"
  else if k.gemini then some "gemini"
  else none

/-! ### Cost computation (`llm.py`, `openai_llm.py`, `gemini_llm.py`)

The pricing tables hold per-token dollar rates; we compute in exact
rational arithmetic. -/

/-- `ClaudeLLMProcessor.PRICING`. -/
def claudePricing (model : String) : Option (ℚ × ℚ) :=
  if model = "claude-3-haiku-20240307" then
    some (25 / 100000000, 125 / 100000000)
  else if model = "claude-3-5-sonnet-20241022" then
    some (3 / 1000000, 15 / 1000000)
  else none

/-- `OpenAIProcessor.PRICING`. -/
def openaiPricing (model : String) : Option (ℚ × ℚ) :=
  if model = "gpt-4o-mini" then
    some (150 / 1000000000, 600 / 1000000000)
  else if model = "gpt-4o" then
    some (250 / 100000000, 10 / 1000000)
  else if model = "gpt-4-turbo" then
    some (10 / 1000000, 30 / 1000000)
  else none

/-- `GeminiProcessor.PRICING`. -/
def geminiPricing (model : String) : Option (ℚ × ℚ) :=
  if model = "gemini-1.5-flash" then
    some (75 / 1000000000, 30 / 100000000)
  else if model = "gemini-1.5-pro" then
    some (125 / 100000000, 5 / 1000000)
  else if model = "gemini-pro" then
    some (50 / 100000000, 150 / 100000000)
  else none

/-- The `_calculate_cost` method shared (verbatim) by the three processor
classes: input tokens times the input rate plus output tokens times the
output rate when the model is in the table of the class, else `0.0`. -/
def calculateCost (pricing : String → Option (ℚ × ℚ)) (model : String)
    (inputTokens outputTokens : ℕ) : ℚ :=
  match pricing model with
  | some p => inputTokens * p.1 + outputTokens * p.2
  | none => 0

/-! ### Spec-side definition for the keyword heuristic

The spec describes the searchable text as the concatenation `title+summary`;
the code builds `f"{title} {summary}"` (a space between the fields). The
following definition follows the spec's words, for comparison with
`keywordMatch` (which follows the code). -/

/-- The keyword heuristic as the spec words it: lower-case the plain
concatenation of title and summary, split the lower-cased topic into
whitespace keywords, count the keywords occurring as substrings, match iff
the count is at least `max 1 (keywordCount / 2)`. -/
def specKeywordMatchConcat (topicFilter : String) (a : Article) : Bool :=
  let searchable := strLower (a.title ++ a.summary)
  let keywords := splitWs (strLower topicFilter)
  decide (max 1 (keywords.length / 2)
    ≤ keywords.countP (fun k => strContainsSub searchable k))

/-! ### Projections of the fetch phase, used to state the run invariants -/

/-- The batch collected by the fetch phase: the concatenation, in source
order, of the article lists of the sources whose fetch succeeded. -/
def collectOk (f : String → Except PyExc (List Article))
    (sources : List String) : List Article :=
  (sources.map (fun s => match f s with
    | Except.ok arts => arts
    | Except.error _ => [])).flatten

/-- The `failed_sources` list: the sources whose fetch raised. -/
def failedOf (f : String → Except PyExc (List Article))
    (sources : List String) : List String :=
  sources.filter (fun s => match f s with
    | Except.ok _ => false
    | Except.error _ => true)

/-- The error entries accumulated by the fetch phase, in source order. -/
def fetchErrsOf (f : String → Except PyExc (List Article))
    (sources : List String) : List ErrEntry :=
  sources.filterMap (fun s => match f s with
    | Except.ok _ => none
    | Except.error e => some (fetchRecordEntry s e))

/-! ### Concrete instances used by counterexamples and witnesses -/

/-- A concrete stand-in for `_extract_source_name` (identity). -/
def extId : String → String := fun s => s

/-- Scenario B's item: title "Tesla unveils new battery", empty summary. -/
def scenarioBItem : Article :=
  { title := "Tesla unveils new battery", summary := "", link := "l"
    published := "p", source := "s", source_name := "S"
    authors := [], tags := [] }

/-- An item whose title is `"a"` and summary `"b"`: the keyword `"ab"` is a
substring of the plain concatenation but not of the space-joined text. -/
def itemAB : Article :=
  { title := "a", summary := "b", link := "l", published := "p"
    source := "s", source_name := "S", authors := [], tags := [] }

/-- An RSS entry with a link but no title attribute at all. -/
def entryNoTitle : RawEntry := { link := some "http://x" }

/-- A minimal valid RSS entry (title and link present). -/
def entryTL : RawEntry := { title := some "T", link := some "L" }

/-- The article `entryTL` parses to (under `extId` and time "now"). -/
def articleTL : Article :=
  { title := "T", summary := "", link := "L", published := "now"
    source := "src", source_name := "src", authors := [], tags := [] }

/-- A valid entry that does not match the topic `"zzz"`. -/
def entryNonMatch : RawEntry := { title := some "T2", link := some "L2" }

/-- The article `entryNonMatch` parses to (under `extId` and time "now",
source "src"). -/
def articleNM : Article :=
  { title := "T2", summary := "", link := "L2", published := "now"
    source := "src", source_name := "src", authors := [], tags := [] }

/-- A fetcher returning a single article for every source. -/
def oneArticleFetcher : String → Except PyExc (List Article) :=
  fun _ => Except.ok [articleTL]

/-- A processor whose synthesis is the empty string. -/
def emptySynthProcessor : List Article → Except PyExc String :=
  fun _ => Except.ok ""

/-- A processor returning a fixed non-empty synthesis. -/
def fixedSynthProcessor : List Article → Except PyExc String :=
  fun _ => Except.ok "synthesis text"

/-- A fetcher failing on the source `"bad"` with a plain exception and
succeeding with one article elsewhere. -/
def mixedFetcher : String → Except PyExc (List Article) :=
  fun s => if s = "bad" then Except.error (.otherExc "boom")
           else Except.ok [articleTL]

/-- A fetcher failing on every source. -/
def allFailFetcher : String → Except PyExc (List Article) :=
  fun s => Except.error (.fetchExc s "timeout")

/-- An LLM call that always raises. -/
def failingCall : String → Except Unit String := fun _ => Except.error ()

/-! ## Theorems -/

/-- C5 (counterexample): the claim's searchable text — the lower-cased
plain concatenation of title and summary — disagrees with the code, which
joins the two fields with a space. For topic "ab", title "a", summary "b",
the spec formula declares a match but `_keyword_match` returns false. -/
theorem keyword_concat_counterexample :
    specKeywordMatchConcat "ab" itemAB = true
      ∧ keywordMatch "ab" itemAB = false := by
  decide

/-- C5 (amended): `_keyword_match` lower-cases the topic and the
space-joined `f"{title} {summary}"`, splits the topic into whitespace
keywords, and matches iff the number of keywords occurring as substrings of
the searchable text is at least `max 1 (keywordCount / 2)`; scenario B
(topic "electric vehicles" against "Tesla unveils new battery" with empty
summary) returns false. -/
theorem keyword_match_amended (t : String) (a : Article) :
    (keywordMatch t a = true ↔
      max 1 ((splitWs (strLower t)).length / 2)
        ≤ (splitWs (strLower t)).countP
            (fun k => strContainsSub (strLower (a.title ++ " " ++ a.summary)) k))
    ∧ keywordMatch "electric vehicles" scenarioBItem = false := by
  refine ⟨?_, by decide⟩
  simp [keywordMatch, List.countP_eq_length_filter]

/-- C4: `_matches_topic` never raises (it is a total function here), and
whenever the semantic path fails — the backend call on the relevance
prompt raises — the returned boolean is exactly the keyword heuristic's
value on the same topic and item. -/
theorem matches_falls_back_to_keyword (t : String) (a : Article)
    (call : String → Except Unit String) (ht : t ≠ "")
    (hfail : call (filterPrompt t a) = Except.error ()) :
    matchesTopic (some t) (some call) a = keywordMatch t a := by
  simp [matchesTopic, ht, llmMatch, hfail]

/-- C4 witness: a backend that always raises degrades to the keyword
heuristic on scenario B's item. -/
theorem matches_falls_back_to_keyword_witness :
    ("zzz" : String) ≠ ""
      ∧ failingCall (filterPrompt "zzz" scenarioBItem) = Except.error ()
      ∧ matchesTopic (some "zzz") (some failingCall) scenarioBItem
          = keywordMatch "zzz" scenarioBItem :=
  ⟨by decide, rfl,
    matches_falls_back_to_keyword "zzz" scenarioBItem failingCall
      (by decide) rfl⟩

/-- The head of the available-provider list is exactly the first provider
of the fixed priority order (anthropic, openai, gemini) whose key is set. -/
theorem availableProviders_head (k : Keys) :
    (getAvailableProviders k).head? = priorityFirst k := by
  rcases k with ⟨a, o, g⟩
  cases a <;> cases o <;> cases g <;> decide

/-- C6: provider selection keeps an available requested provider, falls
back to the first available provider in the fixed priority order
(anthropic, openai, gemini) otherwise, fails with the configuration error
naming the missing API keys when nothing is available, and never selects
an unavailable provider. -/
theorem provider_selection_policy (requested : String) (k : Keys) :
    (getAvailableProviders k = [] →
      selectProvider requested k
        = Except.error (.configExc "API_KEYS" "No LLM API keys configured"))
    ∧ (requested ∈ getAvailableProviders k →
        selectProvider requested k = Except.ok requested)
    ∧ (requested ∉ getAvailableProviders k →
        ∀ p, priorityFirst k = some p →
          selectProvider requested k = Except.ok p)
    ∧ (∀ p, selectProvider requested k = Except.ok p →
        p ∈ getAvailableProviders k) := by
  have hhead := availableProviders_head k
  refine ⟨?_, ?_, ?_, ?_⟩
  · intro h
    simp [selectProvider, h]
  · intro h
    rcases hl : getAvailableProviders k with _ | ⟨a, rest⟩
    · rw [hl] at h; cases h
    · rw [hl] at h
      simp [selectProvider, hl, h]
  · intro h p hp
    rcases hl : getAvailableProviders k with _ | ⟨a, rest⟩
    · rw [hl] at hhead; rw [hp] at hhead; cases hhead
    · rw [hl] at hhead h
      rw [hp] at hhead
      simp only [List.head?_cons, Option.some.injEq] at hhead
      subst hhead
      simp [selectProvider, hl, h]
  · intro p h
    rcases hl : getAvailableProviders k with _ | ⟨a0, rest⟩
    · simp [selectProvider, hl] at h
    · simp only [selectProvider, hl] at h
      by_cases hm : requested ∈ a0 :: rest
      · rw [if_pos hm] at h
        cases h
        exact hm
      · rw [if_neg hm] at h
        cases h
        exact List.mem_cons_self _ _

/-- C6 witness: with only openai and gemini keys configured, requesting
anthropic selects openai (the priority-first available provider), and it
is indeed available. -/
theorem provider_selection_policy_witness :
    ("anthropic" ∉ getAvailableProviders ⟨false, true, true⟩)
      ∧ priorityFirst ⟨false, true, true⟩ = some "openai"
      ∧ selectProvider "anthropic" ⟨false, true, true⟩ = Except.ok "openai"
      ∧ getAvailableProviders ⟨false, false, false⟩ = []
      ∧ selectProvider "anthropic" ⟨false, false, false⟩
          = Except.error (.configExc "API_KEYS" "No LLM API keys configured") :=
  ⟨by decide, by decide,
    (provider_selection_policy "anthropic" ⟨false, true, true⟩).2.2.1
      (by decide) "openai" (by decide),
    by decide,
    (provider_selection_policy "anthropic" ⟨false, false, false⟩).1 (by decide)⟩

/-- Every rate appearing in any of the three pricing tables is strictly
positive. -/
theorem pricing_rates_pos (pr : String → Option (ℚ × ℚ))
    (hpr : pr = claudePricing ∨ pr = openaiPricing ∨ pr = geminiPricing)
    (m : String) (p : ℚ × ℚ) (h : pr m = some p) : 0 < p.1 ∧ 0 < p.2 := by
  rcases hpr with rfl | rfl | rfl <;>
    [unfold claudePricing at h; unfold openaiPricing at h;
      unfold geminiPricing at h] <;>
    split_ifs at h <;>
    cases h <;>
    constructor <;>
    norm_num

/-- C9: for each of the three backends, the cost is
`inputTokens * inputRate + outputTokens * outputRate` from that backend's
pricing table; it is non-negative, strictly increasing in either token
count for a model present in the table, and exactly 0 for a model absent
from the table. -/
theorem cost_nonneg_monotone (pr : String → Option (ℚ × ℚ))
    (hpr : pr = claudePricing ∨ pr = openaiPricing ∨ pr = geminiPricing)
    (m : String) (i o i' o' : ℕ) :
    0 ≤ calculateCost pr m i o
    ∧ (pr m = none → calculateCost pr m i o = 0)
    ∧ (pr m ≠ none → i < i' →
        calculateCost pr m i o < calculateCost pr m i' o)
    ∧ (pr m ≠ none → o < o' →
        calculateCost pr m i o < calculateCost pr m i o') := by
  cases h : pr m with
  | none =>
    refine ⟨?_, fun _ => ?_, fun hne => absurd rfl hne, fun hne => absurd rfl hne⟩
      <;> simp [calculateCost, h]
  | some p =>
    obtain ⟨h1, h2⟩ := pricing_rates_pos pr hpr m p h
    refine ⟨?_, fun hc => Option.noConfusion hc, fun _ hi => ?_, fun _ ho => ?_⟩
    · simp only [calculateCost, h]
      positivity
    · simp only [calculateCost, h]
      have : (i : ℚ) * p.1 < (i' : ℚ) * p.1 := by
        exact mul_lt_mul_of_pos_right (by exact_mod_cast hi) h1
      linarith
    · simp only [calculateCost, h]
      have : (o : ℚ) * p.2 < (o' : ℚ) * p.2 := by
        exact mul_lt_mul_of_pos_right (by exact_mod_cast ho) h2
      linarith

/-- C9 witness: the OpenAI table at `gpt-4o` with token counts growing
from (1,1) to (2,1), plus the unknown-model case. -/
theorem cost_nonneg_monotone_witness :
    openaiPricing "gpt-4o" ≠ none
      ∧ (1 : ℕ) < 2
      ∧ calculateCost openaiPricing "gpt-4o" 1 1
          < calculateCost openaiPricing "gpt-4o" 2 1
      ∧ openaiPricing "unknown-model" = none
      ∧ calculateCost openaiPricing "unknown-model" 3 4 = 0 :=
  ⟨by decide, by decide,
    (cost_nonneg_monotone openaiPricing (Or.inr (Or.inl rfl))
        "gpt-4o" 1 1 2 1).2.2.1 (by decide) (by decide),
    by decide,
    (cost_nonneg_monotone openaiPricing (Or.inr (Or.inl rfl))
        "unknown-model" 3 4 5 6).2.1 (by decide)⟩

/-- Every article accepted by the extraction loop was already in the
accumulator or is the parse of some entry. -/
theorem fetchLoop_mem (extName : String → String) (now : String)
    (maxArticles : Nat) (topicFilter : Option String)
    (llm : Option (String → Except Unit String)) (source : String) :
    ∀ (entries : List RawEntry) (acc : List Article) (a : Article),
      a ∈ fetchLoop extName now maxArticles topicFilter llm source entries acc →
      a ∈ acc ∨ ∃ e, parseEntry extName now e source = some a := by
  intro entries
  induction entries with
  | nil =>
    intro acc a h
    simp only [fetchLoop] at h
    exact Or.inl h
  | cons e rest ih =>
    intro acc a h
    cases hp : parseEntry extName now e source with
    | none =>
      simp only [fetchLoop, hp] at h
      exact ih acc a h
    | some b =>
      simp only [fetchLoop, hp] at h
      by_cases hd : (topicTruthy topicFilter && !matchesTopic topicFilter llm b) = true
      · rw [if_pos hd] at h
        exact ih acc a h
      · rw [if_neg hd] at h
        by_cases hc : maxArticles ≤ (acc ++ [b]).length
        · rw [if_pos hc] at h
          rcases List.mem_append.mp h with h1 | h1
          · exact Or.inl h1
          · rcases List.mem_singleton.mp h1 with rfl
            exact Or.inr ⟨e, hp⟩
        · rw [if_neg hc] at h
          rcases ih (acc ++ [b]) a h with h1 | h1
          · rcases List.mem_append.mp h1 with h2 | h2
            · exact Or.inl h2
            · rcases List.mem_singleton.mp h2 with rfl
              exact Or.inr ⟨e, hp⟩
          · exact Or.inr h1

/-- Inversion of a successful `fetch`: the returned list is exactly what
the extraction loop produced from the feed's entries. -/
theorem fetchModel_ok_inv (extName : String → String) (now : String)
    (maxArticles : Nat) (topicFilter : Option String)
    (llm : Option (String → Except Unit String)) (src : String) (feed : Feed)
    (arts : List Article)
    (h : fetchModel extName now maxArticles topicFilter llm src feed
          = Except.ok arts) :
    arts = fetchLoop extName now maxArticles topicFilter llm src
            feed.entries [] := by
  rw [fetchModel] at h
  split at h
  · exact Except.noConfusion h
  · split at h
    · exact Except.noConfusion h
    · dsimp only at h
      split at h
      · split at h
        · exact Except.noConfusion h
        · exact Except.noConfusion h
      · injection h with h1
        exact h1.symm

/-- C3 (counterexample): an RSS entry with a link but no title attribute
is NOT discarded — the `entry.get` call with default `"No title"` substitutes the
placeholder `"No title"` and the item is kept. -/
theorem missing_title_not_discarded :
    entryNoTitle.title = none
      ∧ parseEntry extId "now" entryNoTitle "src" ≠ none
      ∧ (parseEntry extId "now" entryNoTitle "src").map Article.title
          = some "No title" := by
  decide

/-- C3 (amended): an entry missing its link (or whose provided title or
link is the empty string) is discarded silently; an entry missing its
title is instead kept with the placeholder title `"No title"`; every
article produced by parsing — hence every item returned by `fetch` — has a
non-empty title and a non-empty link. -/
theorem parse_validation_amended (extName : String → String) (now : String) :
    (∀ e src, e.link = none → parseEntry extName now e src = none)
    ∧ (∀ e src a, parseEntry extName now e src = some a →
        a.title ≠ "" ∧ a.link ≠ "")
    ∧ (∀ e src a, e.title = none → parseEntry extName now e src = some a →
        a.title = "No title")
    ∧ (∀ maxArticles topicFilter llm src feed arts,
        fetchModel extName now maxArticles topicFilter llm src feed
          = Except.ok arts →
        ∀ a ∈ arts, a.title ≠ "" ∧ a.link ≠ "") := by
  have hval : ∀ e src a, parseEntry extName now e src = some a →
      a.title ≠ "" ∧ a.link ≠ "" := by
    intro e src a h
    rw [parseEntry] at h
    split at h
    · exact Option.noConfusion h
    · rename_i hcond
      injection h with h1
      subst h1
      simp only [Bool.or_eq_true, decide_eq_true_eq] at hcond
      push_neg at hcond
      exact hcond
  refine ⟨?_, hval, ?_, ?_⟩
  · intro e src hlink
    rw [parseEntry]
    simp [hlink]
  · intro e src a htitle h
    rw [parseEntry] at h
    split at h
    · exact Option.noConfusion h
    · injection h with h1
      subst h1
      simp [htitle]
  · intro maxArticles topicFilter llm src feed arts hok a ha
    rw [fetchModel_ok_inv extName now maxArticles topicFilter llm src
      feed arts hok] at ha
    rcases fetchLoop_mem extName now maxArticles topicFilter llm src
        feed.entries [] a ha with h1 | ⟨e, he⟩
    · cases h1
    · exact hval e src a he

/-- Invariant for C10: starting strictly below `max 1 maxArticles`
accepted articles, the loop never returns more than `max 1 maxArticles`
of them. -/
theorem fetchLoop_length (extName : String → String) (now : String)
    (maxArticles : Nat) (topicFilter : Option String)
    (llm : Option (String → Except Unit String)) (source : String) :
    ∀ (entries : List RawEntry) (acc : List Article),
      acc.length < max 1 maxArticles →
      (fetchLoop extName now maxArticles topicFilter llm source
        entries acc).length ≤ max 1 maxArticles := by
  intro entries
  induction entries with
  | nil =>
    intro acc hacc
    simp only [fetchLoop]
    omega
  | cons e rest ih =>
    intro acc hacc
    cases hp : parseEntry extName now e source with
    | none =>
      simp only [fetchLoop, hp]
      exact ih acc hacc
    | some b =>
      simp only [fetchLoop, hp]
      by_cases hd : (topicTruthy topicFilter && !matchesTopic topicFilter llm b) = true
      · rw [if_pos hd]
        exact ih acc hacc
      · rw [if_neg hd]
        by_cases hc : maxArticles ≤ (acc ++ [b]).length
        · rw [if_pos hc]
          simp only [List.length_append, List.length_singleton]
          omega
        · rw [if_neg hc]
          apply ih
          simp only [List.length_append, List.length_singleton] at hc ⊢
          omega

/-- C10 (counterexample): with `max_articles = 0` the fetch still returns
one article — the cap check `len(articles) >= max_articles` runs only
after an append, so the claimed bound `len ≤ max_articles` fails at 0. -/
theorem fetch_cap_zero_counterexample :
    fetchModel extId "now" 0 none none "src" { entries := [entryTL] }
      = Except.ok [articleTL]
      ∧ ¬ ([articleTL].length ≤ 0) := by
  exact ⟨rfl, by decide⟩

/-- C10 (amended): `fetch` returns at most `max 1 max_articles` items —
i.e. at most `max_articles` whenever `max_articles ≥ 1`, and a single item
may still be returned when the configured cap is 0. -/
theorem fetch_at_most_cap (extName : String → String) (now : String)
    (maxArticles : Nat) (topicFilter : Option String)
    (llm : Option (String → Except Unit String)) (src : String) (feed : Feed)
    (arts : List Article)
    (h : fetchModel extName now maxArticles topicFilter llm src feed
          = Except.ok arts) :
    arts.length ≤ max 1 maxArticles := by
  rw [fetchModel_ok_inv extName now maxArticles topicFilter llm src
    feed arts h]
  apply fetchLoop_length
  simp

/-- C10 witness: a cap of 2 on a three-valid-entry feed yields exactly two
articles, within the bound. -/
theorem fetch_at_most_cap_witness :
    fetchModel extId "now" 2 none none "src"
        { entries := [entryTL, entryTL, entryTL] }
      = Except.ok [articleTL, articleTL]
      ∧ ([articleTL, articleTL] : List Article).length ≤ max 1 2 :=
  ⟨rfl,
    fetch_at_most_cap extId "now" 2 none none "src"
      { entries := [entryTL, entryTL, entryTL] } [articleTL, articleTL] rfl⟩

/-- C3 witness: instantiating the amended parse-validation facts at
concrete entries. -/
theorem parse_validation_amended_witness :
    parseEntry extId "now" { title := some "T" } "src" = none
      ∧ parseEntry extId "now" entryTL "src" = some articleTL
      ∧ articleTL.title ≠ "" ∧ articleTL.link ≠ "" :=
  ⟨(parse_validation_amended extId "now").1 { title := some "T" } "src" rfl,
    by decide,
    (parse_validation_amended extId "now").2.1 entryTL "src" articleTL
      (by decide)⟩

/-- The storage phase only touches `storage_id` and appends to `errors`. -/
theorem storagePhase_fields
    (storage : Option (String → List Article → Except PyExc String))
    (syn : String) (arts : List Article) (r : Results) :
    (storagePhase storage syn arts r).success = r.success
    ∧ (storagePhase storage syn arts r).articles_processed
        = r.articles_processed
    ∧ (storagePhase storage syn arts r).synthesis = r.synthesis
    ∧ (storagePhase storage syn arts r).duration = r.duration
    ∧ ∃ extra, (storagePhase storage syn arts r).errors
        = r.errors ++ extra := by
  cases storage with
  | none => exact ⟨rfl, rfl, rfl, rfl, [], by simp [storagePhase]⟩
  | some save =>
    cases h : save syn arts with
    | ok sid =>
      refine ⟨?_, ?_, ?_, ?_, [], ?_⟩ <;> simp [storagePhase, h]
    | error e =>
      refine ⟨?_, ?_, ?_, ?_,
        [({ phase := "storage", error := e.pyStr } : ErrEntry)], ?_⟩ <;>
        simp [storagePhase, h]

/-- The output phase only touches `output_path` and appends to `errors`. -/
theorem outputPhase_fields (output : Option (String → Except PyExc String))
    (syn : String) (r : Results) :
    (outputPhase output syn r).success = r.success
    ∧ (outputPhase output syn r).articles_processed = r.articles_processed
    ∧ (outputPhase output syn r).synthesis = r.synthesis
    ∧ (outputPhase output syn r).duration = r.duration
    ∧ ∃ extra, (outputPhase output syn r).errors = r.errors ++ extra := by
  cases output with
  | none => exact ⟨rfl, rfl, rfl, rfl, [], by simp [outputPhase]⟩
  | some gen =>
    cases h : gen syn with
    | ok path =>
      refine ⟨?_, ?_, ?_, ?_, [], ?_⟩ <;> simp [outputPhase, h]
    | error e =>
      refine ⟨?_, ?_, ?_, ?_,
        [({ phase := "output", error := e.pyStr } : ErrEntry)], ?_⟩ <;>
        simp [outputPhase, h]

/-- Characterization of the fetch-phase fold of `Pipeline.run`: it
concatenates the successful sources' articles, collects the failing
sources, and appends one fetch error entry per failing source. -/
theorem fetchPhase_foldl (f : String → Except PyExc (List Article)) :
    ∀ (sources : List String) (arts : List Article) (failed : List String)
      (r : Results),
      sources.foldl (fetchPhaseStep f) (arts, failed, r)
        = (arts ++ collectOk f sources, failed ++ failedOf f sources,
            { r with errors := r.errors ++ fetchErrsOf f sources }) := by
  intro sources
  induction sources with
  | nil =>
    intro arts failed r
    simp [collectOk, failedOf, fetchErrsOf]
  | cons s rest ih =>
    intro arts failed r
    rw [List.foldl_cons]
    cases hf : f s with
    | ok as =>
      have hstep : fetchPhaseStep f (arts, failed, r) s
          = (arts ++ as, failed, r) := by
        simp [fetchPhaseStep, hf]
      rw [hstep, ih]
      simp [collectOk, failedOf, fetchErrsOf, hf, List.append_assoc]
    | error e =>
      have hstep : fetchPhaseStep f (arts, failed, r) s
          = (arts, failed ++ [s],
              { r with errors := r.errors ++ [fetchRecordEntry s e] }) := by
        simp [fetchPhaseStep, hf]
      rw [hstep, ih]
      simp [collectOk, failedOf, fetchErrsOf, hf, List.append_assoc]

/-- Inversion of a `run` body that returned normally: both components were
configured, the batch was non-empty, the processor succeeded, and the final
dictionary has `success`, `duration`, `synthesis`, the article count, and
all the fetch error entries. -/
theorem runCore_ok_master
    (fetcher : Option (String → Except PyExc (List Article)))
    (processor : Option (List Article → Except PyExc String))
    (storage : Option (String → List Article → Except PyExc String))
    (output : Option (String → Except PyExc String))
    (elapsed : Nat) (sources : List String) (topic : Option String)
    (u : Unit) (r : Results)
    (h : runCore fetcher processor storage output elapsed sources topic
          = (Except.ok u, r)) :
    ∃ f p, fetcher = some f ∧ processor = some p
      ∧ r.duration = elapsed ∧ r.success = true
      ∧ r.articles_processed = (collectOk f sources).length
      ∧ collectOk f sources ≠ []
      ∧ (∃ syn, p (collectOk f sources) = Except.ok syn
          ∧ r.synthesis = some syn)
      ∧ (∀ x ∈ fetchErrsOf f sources, x ∈ r.errors) := by
  cases fetcher with
  | none =>
    rw [runCore, Prod.mk.injEq] at h
    exact Except.noConfusion h.1
  | some f =>
    cases processor with
    | none =>
      rw [runCore, Prod.mk.injEq] at h
      exact Except.noConfusion h.1
    | some p =>
      refine ⟨f, p, rfl, rfl, ?_⟩
      rw [runCore] at h
      dsimp only at h
      rw [fetchPhase_foldl f sources [] [] (initResults sources topic)] at h
      dsimp only at h
      simp only [initResults, List.nil_append] at h
      split at h
      · rw [Prod.mk.injEq] at h
        exact Except.noConfusion h.1
      · rename_i hne
        cases hp : p (collectOk f sources) with
        | error e =>
          rw [hp] at h
          rw [Prod.mk.injEq] at h
          exact Except.noConfusion h.1
        | ok syn =>
          rw [hp] at h
          dsimp only at h
          rw [Prod.mk.injEq] at h
          obtain ⟨-, h2⟩ := h
          subst h2
          obtain ⟨so1, so2, so3, so4, extra1, herr1⟩ :=
            storagePhase_fields storage syn (collectOk f sources)
              { success := false, topic := topic, sources := sources
                articles_processed := (collectOk f sources).length
                errors := fetchErrsOf f sources, output_path := none
                storage_id := none, duration := 0, synthesis := none }
          obtain ⟨ou1, ou2, ou3, ou4, extra2, herr2⟩ :=
            outputPhase_fields output syn
              (storagePhase storage syn (collectOk f sources)
                { success := false, topic := topic, sources := sources
                  articles_processed := (collectOk f sources).length
                  errors := fetchErrsOf f sources, output_path := none
                  storage_id := none, duration := 0, synthesis := none })
          refine ⟨rfl, rfl, ?_, ?_, ⟨syn, rfl, rfl⟩, ?_⟩
          · show (outputPhase output syn (storagePhase storage syn _ _)).articles_processed
              = (collectOk f sources).length
            rw [ou2, so2]
          · intro hc
            rw [hc] at hne
            simp at hne
          · intro x hx
            show x ∈ (outputPhase output syn (storagePhase storage syn _ _)).errors
            rw [herr2, herr1]
            exact List.mem_append_left _ (List.mem_append_left _ hx)

/-- A `run` body that raised leaves `success = false` in the dictionary. -/
theorem runCore_err_success
    (fetcher : Option (String → Except PyExc (List Article)))
    (processor : Option (List Article → Except PyExc String))
    (storage : Option (String → List Article → Except PyExc String))
    (output : Option (String → Except PyExc String))
    (elapsed : Nat) (sources : List String) (topic : Option String)
    (e : PyExc) (r : Results)
    (h : runCore fetcher processor storage output elapsed sources topic
          = (Except.error e, r)) :
    r.success = false := by
  cases fetcher with
  | none =>
    rw [runCore, Prod.mk.injEq] at h
    rw [← h.2]
    rfl
  | some f =>
    cases processor with
    | none =>
      rw [runCore, Prod.mk.injEq] at h
      rw [← h.2]
      rfl
    | some p =>
      rw [runCore] at h
      dsimp only at h
      rw [fetchPhase_foldl f sources [] [] (initResults sources topic)] at h
      dsimp only at h
      simp only [initResults, List.nil_append] at h
      split at h
      · rw [Prod.mk.injEq] at h
        rw [← h.2]
      · cases hp : p (collectOk f sources) with
        | error pe =>
          rw [hp] at h
          dsimp only at h
          rw [Prod.mk.injEq] at h
          rw [← h.2]
        | ok syn =>
          rw [hp] at h
          dsimp only at h
          rw [Prod.mk.injEq] at h
          exact Except.noConfusion h.1

/-- `wrapProcess` always yields a `ProcessError`. -/
theorem wrapProcess_shape (e : PyExc) :
    ∃ proc msg, wrapProcess e = PyExc.processExc proc msg := by
  cases e <;> simp [wrapProcess]

/-- Direct computation of the `run` body when no articles were collected
from any source: it raises the all-sources `FetchError` with the
articles-processed counter still at 0 and the fetch errors recorded. -/
theorem runCore_allfail (f : String → Except PyExc (List Article))
    (p : List Article → Except PyExc String)
    (storage : Option (String → List Article → Except PyExc String))
    (output : Option (String → Except PyExc String))
    (elapsed : Nat) (sources : List String) (topic : Option String)
    (hc : collectOk f sources = []) :
    runCore (some f) (some p) storage output elapsed sources topic
      = (Except.error (.fetchExc "all_sources"
            ("No articles fetched from any source. Failed sources: "
              ++ pyReprList (failedOf f sources))),
          { success := false, topic := topic, sources := sources
            articles_processed := 0, errors := fetchErrsOf f sources
            output_path := none, storage_id := none, duration := 0
            synthesis := none }) := by
  rw [runCore]
  dsimp only
  rw [fetchPhase_foldl f sources [] [] (initResults sources topic)]
  dsimp only
  simp [initResults, hc]

/-- In a `run` body with both components configured that raised while some
articles had been collected, the raised exception is a `ProcessError` and
the fetch errors are in the dictionary. -/
theorem runCore_err_nonempty (f : String → Except PyExc (List Article))
    (p : List Article → Except PyExc String)
    (storage : Option (String → List Article → Except PyExc String))
    (output : Option (String → Except PyExc String))
    (elapsed : Nat) (sources : List String) (topic : Option String)
    (e : PyExc) (r : Results)
    (h : runCore (some f) (some p) storage output elapsed sources topic
          = (Except.error e, r))
    (hc : collectOk f sources ≠ []) :
    (∃ proc msg, e = PyExc.processExc proc msg)
      ∧ r.articles_processed = (collectOk f sources).length
      ∧ (∀ x ∈ fetchErrsOf f sources, x ∈ r.errors) := by
  rw [runCore] at h
  dsimp only at h
  rw [fetchPhase_foldl f sources [] [] (initResults sources topic)] at h
  dsimp only at h
  simp only [initResults, List.nil_append] at h
  split at h
  · rename_i hemp
    rw [List.isEmpty_iff] at hemp
    exact absurd hemp hc
  · cases hp : p (collectOk f sources) with
    | error pe =>
      rw [hp] at h
      dsimp only at h
      rw [Prod.mk.injEq] at h
      obtain ⟨h1, h2⟩ := h
      injection h1 with h1
      refine ⟨?_, ?_, ?_⟩
      · rw [← h1]
        exact wrapProcess_shape pe
      · rw [← h2]
      · intro x hx
        rw [← h2]
        exact List.mem_append_left _ hx
    | ok syn =>
      rw [hp] at h
      dsimp only at h
      rw [Prod.mk.injEq] at h
      exact Except.noConfusion h.1

/-- `runModel` is the body's result wrapped by the exception handler: on a
normal return the dictionary is returned as-is; on a raise the dictionary
gets `duration` set and the exception propagates. -/
theorem runModel_cases
    (fetcher : Option (String → Except PyExc (List Article)))
    (processor : Option (List Article → Except PyExc String))
    (storage : Option (String → List Article → Except PyExc String))
    (output : Option (String → Except PyExc String))
    (metricsFail : Bool) (elapsed : Nat) (sources : List String)
    (topic : Option String) :
    (∃ u r, runCore fetcher processor storage output elapsed sources topic
        = (Except.ok u, r)
      ∧ runModel fetcher processor storage output metricsFail elapsed
          sources topic
        = { outcome := Except.ok r, finalState := r, metricsSaves := 1
            warnings := if metricsFail
              then ["Warning: Failed to save metrics"] else [] })
    ∨ (∃ e r, runCore fetcher processor storage output elapsed sources topic
        = (Except.error e, r)
      ∧ runModel fetcher processor storage output metricsFail elapsed
          sources topic
        = { outcome := Except.error e
            finalState := { r with duration := elapsed }, metricsSaves := 1
            warnings := if metricsFail
              then ["Warning: Failed to save metrics"] else [] }) := by
  cases h : runCore fetcher processor storage output elapsed sources topic with
  | mk exc r =>
    cases exc with
    | ok u =>
      left
      exact ⟨u, r, rfl, by simp only [runModel, h]⟩
    | error e =>
      right
      exact ⟨e, r, rfl, by simp only [runModel, h]⟩

/-- C1: a source whose fetch raises is recorded in `errors` with
phase="fetch" and skipped — the run still processes every article
collected from the other sources; and the run raises the all-sources
`FetchError` (with the counter at zero) exactly when no articles were
collected from any source. -/
theorem fetch_isolation_all_fail_escalation
    (f : String → Except PyExc (List Article))
    (p : List Article → Except PyExc String)
    (storage : Option (String → List Article → Except PyExc String))
    (output : Option (String → Except PyExc String))
    (metricsFail : Bool) (elapsed : Nat) (sources : List String)
    (topic : Option String) :
    (∀ s ∈ sources, ∀ e, f s = Except.error e →
      fetchRecordEntry s e ∈
        (runModel (some f) (some p) storage output metricsFail elapsed
          sources topic).finalState.errors)
    ∧ (collectOk f sources ≠ [] →
        (runModel (some f) (some p) storage output metricsFail elapsed
          sources topic).finalState.articles_processed
          = (collectOk f sources).length)
    ∧ ((∃ msg, (runModel (some f) (some p) storage output metricsFail elapsed
          sources topic).outcome
            = Except.error (.fetchExc "all_sources" msg))
        ↔ collectOk f sources = [])
    ∧ (collectOk f sources = [] →
        (runModel (some f) (some p) storage output metricsFail elapsed
          sources topic).finalState.articles_processed = 0) := by
  have hmem : ∀ s ∈ sources, ∀ e, f s = Except.error e →
      fetchRecordEntry s e ∈ fetchErrsOf f sources := by
    intro s hs e hfe
    refine List.mem_filterMap.mpr ⟨s, hs, ?_⟩
    rw [hfe]
  rcases runModel_cases (some f) (some p) storage output metricsFail elapsed
      sources topic with ⟨u, r, hcore, hrm⟩ | ⟨e, r, hcore, hrm⟩
  · obtain ⟨f', p', hf', hp', hdur, hsucc, hcount, hne, hsyn, herrs⟩ :=
      runCore_ok_master _ _ _ _ _ _ _ _ _ hcore
    injection hf' with hf'
    injection hp' with hp'
    subst hf' hp'
    rw [hrm]
    refine ⟨?_, fun _ => hcount, ?_, fun hc => absurd hc hne⟩
    · intro s hs e hfe
      exact herrs _ (hmem s hs e hfe)
    · constructor
      · rintro ⟨msg, hout⟩
        exact absurd hout (by simp)
      · intro hc
        exact absurd hc hne
  · by_cases hc : collectOk f sources = []
    · rw [runCore_allfail f p storage output elapsed sources topic hc] at hcore
      rw [Prod.mk.injEq] at hcore
      obtain ⟨h1, h2⟩ := hcore
      injection h1 with h1
      rw [hrm, ← h2, ← h1]
      refine ⟨?_, fun hn => absurd hc hn, ?_, fun _ => rfl⟩
      · intro s hs e hfe
        exact hmem s hs e hfe
      · exact ⟨fun _ => hc, fun _ => ⟨_, rfl⟩⟩
    · obtain ⟨⟨proc, msg, hshape⟩, hcount, herrs⟩ :=
        runCore_err_nonempty f p storage output elapsed sources topic e r
          hcore hc
      rw [hrm]
      refine ⟨?_, fun _ => hcount, ?_, fun hcc => absurd hcc hc⟩
      · intro s hs e' hfe
        exact herrs _ (hmem s hs e' hfe)
      · constructor
        · rintro ⟨m, hout⟩
          simp only [Except.error.injEq] at hout
          rw [hshape] at hout
          exact PyExc.noConfusion hout
        · intro hcc
          exact absurd hcc hc

/-- C1 witness: two sources where exactly one fails — the failure is
recorded with phase="fetch" and the surviving source's article is still
processed; and the escalation iff on an all-failing run. -/
theorem fetch_isolation_all_fail_escalation_witness :
    ("bad" ∈ ["bad", "good"] ∧ mixedFetcher "bad" = Except.error (.otherExc "boom"))
    ∧ fetchRecordEntry "bad" (.otherExc "boom") ∈
        (runModel (some mixedFetcher) (some fixedSynthProcessor) none none
          false 7 ["bad", "good"] none).finalState.errors
    ∧ (collectOk mixedFetcher ["bad", "good"] ≠ [] ∧
        (runModel (some mixedFetcher) (some fixedSynthProcessor) none none
          false 7 ["bad", "good"] none).finalState.articles_processed
          = (collectOk mixedFetcher ["bad", "good"]).length)
    ∧ (collectOk allFailFetcher ["a", "b"] = [] ∧
        (runModel (some allFailFetcher) (some fixedSynthProcessor) none none
          false 7 ["a", "b"] none).finalState.articles_processed = 0) :=
  ⟨⟨by decide, rfl⟩,
    (fetch_isolation_all_fail_escalation mixedFetcher fixedSynthProcessor
      none none false 7 ["bad", "good"] none).1 "bad" (by decide)
      (.otherExc "boom") rfl,
    ⟨by decide,
      (fetch_isolation_all_fail_escalation mixedFetcher fixedSynthProcessor
        none none false 7 ["bad", "good"] none).2.1 (by decide)⟩,
    ⟨by decide,
      (fetch_isolation_all_fail_escalation allFailFetcher fixedSynthProcessor
        none none false 7 ["a", "b"] none).2.2.2 (by decide)⟩⟩

/-- C2 (counterexample): a processor returning the empty string still
yields `success = true` with `synthesis = some ""` — the claimed
non-emptiness of the synthesis is not checked by `Pipeline.run`. -/
theorem success_with_empty_synthesis_cex :
    (runModel (some oneArticleFetcher) (some emptySynthProcessor) none none
      false 7 ["s1"] none).finalState.success = true
    ∧ (runModel (some oneArticleFetcher) (some emptySynthProcessor) none none
        false 7 ["s1"] none).finalState.synthesis = some ""
    ∧ (runModel (some oneArticleFetcher) (some emptySynthProcessor) none none
        false 7 ["s1"] none).finalState.articles_processed = 1 := by
  decide

/-- C2 (amended): `success = true` only if the synthesis phase succeeded —
the `synthesis` key is present (the processor's output, possibly empty) —
and at least one article was processed. -/
theorem success_implies_processed_and_synthesis
    (fetcher : Option (String → Except PyExc (List Article)))
    (processor : Option (List Article → Except PyExc String))
    (storage : Option (String → List Article → Except PyExc String))
    (output : Option (String → Except PyExc String))
    (metricsFail : Bool) (elapsed : Nat) (sources : List String)
    (topic : Option String)
    (h : (runModel fetcher processor storage output metricsFail elapsed
          sources topic).finalState.success = true) :
    1 ≤ (runModel fetcher processor storage output metricsFail elapsed
          sources topic).finalState.articles_processed
    ∧ ∃ syn, (runModel fetcher processor storage output metricsFail elapsed
          sources topic).finalState.synthesis = some syn := by
  rcases runModel_cases fetcher processor storage output metricsFail elapsed
      sources topic with ⟨u, r, hcore, hrm⟩ | ⟨e, r, hcore, hrm⟩
  · obtain ⟨f, p, -, -, -, hsucc, hcount, hne, ⟨syn, -, hsyn⟩, -⟩ :=
      runCore_ok_master _ _ _ _ _ _ _ _ _ hcore
    rw [hrm]
    refine ⟨?_, ⟨syn, hsyn⟩⟩
    rw [hcount]
    exact List.length_pos.mpr hne
  · have hfalse := runCore_err_success _ _ _ _ _ _ _ _ _ hcore
    rw [hrm] at h
    rw [show ({ r with duration := elapsed } : Results).success = r.success
      from rfl] at h
    rw [hfalse] at h
    exact Bool.noConfusion h

/-- C2 witness: a successful concrete run satisfies the amended
implication. -/
theorem success_implies_processed_and_synthesis_witness :
    (runModel (some oneArticleFetcher) (some fixedSynthProcessor) none none
      false 7 ["s1"] none).finalState.success = true
    ∧ (1 ≤ (runModel (some oneArticleFetcher) (some fixedSynthProcessor)
          none none false 7 ["s1"] none).finalState.articles_processed
        ∧ ∃ syn, (runModel (some oneArticleFetcher) (some fixedSynthProcessor)
          none none false 7 ["s1"] none).finalState.synthesis = some syn) :=
  ⟨by decide,
    success_implies_processed_and_synthesis (some oneArticleFetcher)
      (some fixedSynthProcessor) none none false 7 ["s1"] none (by decide)⟩

/-- C8: on every exit path the run sets `duration` (from the externally
measured elapsed time), attempts the metrics flush exactly once, and a
failing flush never changes the run's outcome. -/
theorem duration_metrics_every_exit
    (fetcher : Option (String → Except PyExc (List Article)))
    (processor : Option (List Article → Except PyExc String))
    (storage : Option (String → List Article → Except PyExc String))
    (output : Option (String → Except PyExc String))
    (metricsFail : Bool) (elapsed : Nat) (sources : List String)
    (topic : Option String) :
    (runModel fetcher processor storage output metricsFail elapsed sources
      topic).metricsSaves = 1
    ∧ (runModel fetcher processor storage output metricsFail elapsed sources
        topic).finalState.duration = elapsed
    ∧ (runModel fetcher processor storage output true elapsed sources
        topic).outcome
      = (runModel fetcher processor storage output false elapsed sources
          topic).outcome := by
  refine ⟨by rw [runModel], ?_, by rw [runModel, runModel]⟩
  rcases runModel_cases fetcher processor storage output metricsFail elapsed
      sources topic with ⟨u, r, hcore, hrm⟩ | ⟨e, r, hcore, hrm⟩
  · obtain ⟨f, p, -, -, hdur, -⟩ := runCore_ok_master _ _ _ _ _ _ _ _ _ hcore
    rw [hrm]
    exact hdur
  · rw [hrm]

/-- Removing an entry that parses but fails the topic filter from any
position of the entry list leaves the extraction loop's result unchanged:
the drop branch touches neither the accumulator nor any error state. -/
theorem fetchLoop_drop (extName : String → String) (now : String)
    (maxArticles : Nat) (t : String)
    (llm : Option (String → Except Unit String)) (source : String)
    (e : RawEntry) (a : Article)
    (hpe : parseEntry extName now e source = some a)
    (hdrop : (topicTruthy (some t) && !matchesTopic (some t) llm a) = true) :
    ∀ (xs ys : List RawEntry) (acc : List Article),
      fetchLoop extName now maxArticles (some t) llm source
          (xs ++ e :: ys) acc
        = fetchLoop extName now maxArticles (some t) llm source
            (xs ++ ys) acc := by
  intro xs
  induction xs with
  | nil =>
    intro ys acc
    simp only [List.nil_append, fetchLoop, hpe]
    rw [if_pos hdrop]
  | cons x xs' ih =>
    intro ys acc
    simp only [List.cons_append]
    cases hp : parseEntry extName now x source with
    | none =>
      simp only [fetchLoop, hp]
      exact ih ys acc
    | some b =>
      simp only [fetchLoop, hp]
      by_cases hd : (topicTruthy (some t) && !matchesTopic (some t) llm b) = true
      · rw [if_pos hd, if_pos hd]
        exact ih ys acc
      · rw [if_neg hd, if_neg hd]
        by_cases hcap : maxArticles ≤ (acc ++ [b]).length
        · rw [if_pos hcap, if_pos hcap]
        · rw [if_neg hcap, if_neg hcap]
          exact ih ys (acc ++ [b])

/-- Inserting a non-matching (dropped) entry anywhere into a non-empty
feed leaves the whole `fetch` result unchanged — same articles, same
error or success. -/
theorem fetchModel_drop (extName : String → String) (now : String)
    (maxArticles : Nat) (t : String)
    (llm : Option (String → Except Unit String)) (src : String)
    (e : RawEntry) (a : Article)
    (hpe : parseEntry extName now e src = some a)
    (ht : t ≠ "") (hnm : matchesTopic (some t) llm a = false)
    (feed : Feed) (xs ys : List RawEntry)
    (hentries : feed.entries = xs ++ ys) (hne : xs ++ ys ≠ []) :
    fetchModel extName now maxArticles (some t) llm src
        { feed with entries := xs ++ e :: ys }
      = fetchModel extName now maxArticles (some t) llm src feed := by
  have hdrop : (topicTruthy (some t) && !matchesTopic (some t) llm a)
      = true := by
    simp [topicTruthy, ht, hnm]
  have h1 : (xs ++ e :: ys).isEmpty = false := by
    cases xs <;> simp
  have h2 : (xs ++ ys).isEmpty = false := by
    cases hxy : xs ++ ys with
    | nil => exact absurd hxy hne
    | cons y l => simp
  rw [fetchModel, fetchModel]
  simp only [hentries, h1, h2,
    show ({ feed with entries := xs ++ e :: ys } : Feed).entries
      = xs ++ e :: ys from rfl,
    show ({ feed with entries := xs ++ e :: ys } : Feed).bozo
      = feed.bozo from rfl,
    Bool.and_false, Bool.false_eq_true, if_false]
  rw [fetchLoop_drop extName now maxArticles t llm src e a hpe hdrop xs ys []]

/-- C7: with a topic filter configured, an item failing the relevance
check is dropped silently — inserting such an entry anywhere into a
(non-empty) source feed changes nothing about the run: same batch, same
`errors`, same outcome. In particular the drop adds no error entry. -/
theorem drop_on_nonmatch_silent (extName : String → String) (now : String)
    (maxArticles : Nat) (t : String)
    (llm : Option (String → Except Unit String))
    (p : List Article → Except PyExc String)
    (storage : Option (String → List Article → Except PyExc String))
    (output : Option (String → Except PyExc String))
    (metricsFail : Bool) (elapsed : Nat) (sources : List String)
    (topic : Option String)
    (feeds : String → Feed) (s₀ : String) (xs ys : List RawEntry)
    (e : RawEntry) (a : Article)
    (ht : t ≠ "") (hpe : parseEntry extName now e s₀ = some a)
    (hnm : matchesTopic (some t) llm a = false)
    (hentries : (feeds s₀).entries = xs ++ ys) (hne : xs ++ ys ≠ []) :
    runModel (some (fun s => fetchModel extName now maxArticles (some t) llm
        s (if s = s₀ then { feeds s₀ with entries := xs ++ e :: ys }
           else feeds s)))
      (some p) storage output metricsFail elapsed sources topic
    = runModel (some (fun s => fetchModel extName now maxArticles (some t)
        llm s (feeds s)))
      (some p) storage output metricsFail elapsed sources topic := by
  have hfun : (fun s => fetchModel extName now maxArticles (some t) llm s
      (if s = s₀ then { feeds s₀ with entries := xs ++ e :: ys }
       else feeds s))
      = (fun s => fetchModel extName now maxArticles (some t) llm s
          (feeds s)) := by
    funext s
    by_cases hs : s = s₀
    · subst hs
      rw [if_pos rfl]
      exact fetchModel_drop extName now maxArticles t llm s e a hpe ht hnm
        (feeds s) xs ys hentries hne
    · rw [if_neg hs]
  rw [hfun]

/-- C7 witness: a concrete two-entry-vs-one-entry run where the inserted
entry fails the keyword filter for topic "zzz": the two runs coincide. -/
theorem drop_on_nonmatch_silent_witness :
    ("zzz" : String) ≠ ""
    ∧ parseEntry extId "now" entryNonMatch "src" = some articleNM
    ∧ matchesTopic (some "zzz") none articleNM = false
    ∧ runModel (some (fun s => fetchModel extId "now" 5 (some "zzz") none s
          (if s = "src"
           then { ({ entries := [entryTL] } : Feed) with
                    entries := [entryTL] ++ entryNonMatch :: [] }
           else { entries := [entryTL] })))
        (some fixedSynthProcessor) none none false 7 ["src"] none
      = runModel (some (fun s => fetchModel extId "now" 5 (some "zzz") none s
          { entries := [entryTL] }))
        (some fixedSynthProcessor) none none false 7 ["src"] none :=
  ⟨by decide, by decide, by decide,
    drop_on_nonmatch_silent extId "now" 5 "zzz" none fixedSynthProcessor
      none none false 7 ["src"] none (fun _ => { entries := [entryTL] })
      "src" [entryTL] [] entryNonMatch articleNM (by decide) (by decide)
      (by decide) rfl (by decide)⟩

end Aggregator
